import Mathlib

/-!
Verification of the perema personal relationship manager (Go, gin + gorm).

We shallowly embed the data model and the HTTP handlers / scheduled job the
claims are about:

* `main.go`: `main`, `sendBirthdayReminders`, `sendBirthdayMail`
* `backend/controllers/contact_controller.go`: `GetContacts`, `UpdateContact`
* `controllers/contact_controller.go`: `GetAllContacts`, `UpdateContact`,
  `AddRelationshipToContact`
* the relationship controller: `CreateRelationship`
* the reminder controller: `CreateReminder`

Databases are lists of records; gorm `Where`/`Limit`/`Offset`/`Find` calls
become list filtering and slicing; SQL `LIKE` is given its wildcard
semantics (`%` matches any run of characters, `_` any single character);
HTTP responses become a status code, an optional error message and the
returned payload.  Query-string integers arrive as `Option Int`
(`none` = parameter absent; Go's `strconv.Atoi` maps a malformed value to
`0`, so a malformed parameter is `some 0`).
-/

/-- Calendar date (year, month, day), standing for Go `time.Time` truncated
to a date as the `birthday` column stores it.  Go's zero `time.Time` has
year 1, which `sendBirthdayReminders` uses to detect an unset birthday. -/
structure Date where
  year : Int
  month : Nat
  day : Nat
deriving DecidableEq, Repr

/-- Contact record, fields taken from the `allowedFields` whitelist of
`GetContacts` plus `ID`, `Photo` and the `Nickname`/`Firstname`/`Lastname`
uses in `main.go`.  `circles` is the tag list that gorm serializes to a
JSON array column. -/
structure Contact where
  id : Nat
  firstname : String
  lastname : String
  nickname : String
  gender : String
  email : String
  phone : String
  birthday : Date
  address : String
  howWeMet : String
  foodPreference : String
  workInformation : String
  contactInformation : String
  circles : List String
  photo : String
deriving DecidableEq, Repr

/-- Relationship record: a typed association hung off one contact, with an
optional `ContactID` pointer to another contact row (`*uint` in Go, hence
`Option`). -/
structure Relationship where
  rtype : String
  contactID : Option Nat
deriving DecidableEq, Repr

/-- Reminder record with its optional owning `ContactID` (`*uint` in Go). -/
structure Reminder where
  message : String
  contactID : Option Nat
deriving DecidableEq, Repr

/-- Database state: the tables the verified handlers touch. -/
structure DBState where
  contacts : List Contact
  relationships : List Relationship
  reminders : List Reminder
deriving DecidableEq, Repr

/-- gorm `db.First(&x, id)`: first row whose primary key equals `id`,
`none` when the lookup fails with `ErrRecordNotFound`. -/
def findContact (l : List Contact) (i : Nat) : Option Contact :=
  l.find? (fun c => c.id == i)

/-! ## Birthday job (`main.go`, `sendBirthdayReminders` / `sendBirthdayMail`) -/

/-- Dynamic template data of one SendGrid mail, the three
`SetDynamicTemplateData` keys of `sendBirthdayMail`. -/
structure BirthdayMail where
  birthdayPersonNick : String
  birthdayPerson : String
  birthdayAge : String
deriving DecidableEq, Repr

/-- Body of the `for _, contact := range contacts` loop of
`sendBirthdayReminders`: compute the age string (unknown when the birthday
year is Go's zero-time year 1), fall back to the first name when the
nickname is empty, and build the templated mail. -/
def birthdayMailFor (today : Date) (c : Contact) : BirthdayMail :=
  let age := if c.birthday.year != (1 : Int) then
      toString (today.year - c.birthday.year) ++ " years old"
    else "unknown age"
  let nick := if c.nickname = "" then c.firstname else c.nickname
  { birthdayPersonNick := nick
    birthdayPerson := c.firstname ++ " " ++ c.lastname
    birthdayAge := age }

/-- The gorm query of `sendBirthdayReminders`:
`db.Where("birthday = ?", time.Now().Format("2006-01-02")).Find(&contacts)`.
The comparison is against the full formatted current date, year included. -/
def queryBirthdayContacts (contacts : List Contact) (today : Date) : List Contact :=
  contacts.filter (fun c => c.birthday == today)

/-- `sendBirthdayReminders`: query today's birthday contacts, then loop over
them sending one templated mail each (modelled as the emitted mail list, in
loop order). -/
def sendBirthdayReminders (db : DBState) (today : Date) : List BirthdayMail :=
  (queryBirthdayContacts db.contacts today).foldl
    (fun mails c => mails ++ [birthdayMailFor today c]) []

/-! ## Program startup (`main.go`, `main`) -/

/-- The successive statements of `main`, in source order. -/
inductive MainStep
  | newScheduler
  | openDatabase
  | autoMigrate
  | scheduleBirthdayJob
  | startSchedulerBlocking
  | setupRouter
  | registerStaticRoute
  | httpListen
deriving DecidableEq, Repr

/-- `main` in source order: gocron setup, sqlite open, migration, scheduling
`sendBirthdayReminders`, `s.StartBlocking()`, then gin setup, the static
route, and `r.Run()`. -/
def mainProgram : List MainStep :=
  [MainStep.newScheduler, MainStep.openDatabase, MainStep.autoMigrate,
   MainStep.scheduleBirthdayJob, MainStep.startSchedulerBlocking,
   MainStep.setupRouter, MainStep.registerStaticRoute, MainStep.httpListen]

/-- gocron's `Scheduler.StartBlocking` blocks the calling goroutine and
never returns (its non-blocking sibling is `StartAsync`); every other
statement of `main` returns. -/
def blocksForever : MainStep → Bool
  | MainStep.startSchedulerBlocking => true
  | _ => false

/-- Steps a straight-line program actually executes: statements run in
order until one that never returns is entered; that statement runs, but
nothing after it does. -/
def executedSteps : List MainStep → List MainStep
  | [] => []
  | s :: rest => if blocksForever s then [s] else s :: executedSteps rest

/-! ## SQL LIKE semantics

The listing handlers filter with gorm `Where` clauses of the shape
`column LIKE '%param%'`.  SQL `LIKE` treats `%` as "any run of characters"
and `_` as "any single character"; other characters match literally. -/

/-- One token of a LIKE pattern: `%`, `_`, or a literal character. -/
inductive LTok
  | anyRun
  | oneChar
  | lit (c : Char)
deriving DecidableEq, Repr

/-- Read a LIKE pattern string into its tokens. -/
def lexLike (p : List Char) : List LTok :=
  p.map (fun c => if c = '%' then LTok.anyRun else if c = '_' then LTok.oneChar else LTok.lit c)

/-- LIKE pattern matching over the whole string (SQL LIKE is anchored at
both ends): `%` swallows any suffix start, `_` one character, a literal
token exactly itself. -/
def likeMatches : List LTok → List Char → Bool
  | [], s => s.isEmpty
  | LTok.anyRun :: ps, s =>
      (List.range (s.length + 1)).any (fun i => likeMatches ps (s.drop i))
  | LTok.oneChar :: ps, s =>
      match s with
      | [] => false
      | _ :: s' => likeMatches ps s'
  | LTok.lit p :: ps, s =>
      match s with
      | [] => false
      | c :: s' => (p == c) && likeMatches ps s'

/-- `s LIKE pattern` on strings. -/
def sqlLike (s pattern : String) : Bool :=
  likeMatches (lexLike pattern.toList) s.toList

/-- `column LIKE '%t%'`, the containment shape every filter in the
listing handlers uses. -/
def likeContains (t s : String) : Bool :=
  sqlLike s ("%" ++ t ++ "%")

/-- Plain substring occurrence: `t` occurs contiguously inside `s`. -/
def OccursIn (t s : List Char) : Prop :=
  ∃ pre post : List Char, s = pre ++ t ++ post

/-! ## Contact listing (`GetContacts` in `backend/controllers`, and
`GetAllContacts` in `controllers`) -/

/-- The fixed `allowedFields` whitelist of `GetContacts`. -/
def allowedFields : List String :=
  ["firstname", "lastname", "nickname", "gender", "email", "phone", "birthday",
   "address", "how_we_met", "food_preference", "work_information",
   "contact_information", "circles"]

/-- Helper for `splitComma`: accumulate the current (reversed) chunk. -/
def splitCommaAux : List Char → List Char → List String
  | [], cur => [String.mk cur.reverse]
  | c :: rest, cur =>
      if c = ',' then String.mk cur.reverse :: splitCommaAux rest []
      else splitCommaAux rest (c :: cur)

/-- Go's `strings.Split(s, ",")`: split on every comma; the empty string
yields `[""]`. -/
def splitComma (s : String) : List String :=
  splitCommaAux s.toList []

/-- Field-selection step of `GetContacts`: start from `["ID"]` and keep each
comma-separated requested name only when it passes the whitelist; with no
`fields` parameter the whole whitelist is used instead (replacing the slice,
so without `ID`). -/
def gcSelectedFields (fields : String) : List String :=
  if fields ≠ "" then
    "ID" :: (splitComma fields).filter (fun f => allowedFields.contains f)
  else allowedFields

/-- Field-selection step of `GetAllContacts`: the raw comma-split `fields`
value goes straight into `query.Select`; `none` means no `Select` call
(all columns). -/
def gacSelectedFields (fields : String) : Option (List String) :=
  if fields = "" then none else some (splitComma fields)

/-- Effective page number: `DefaultQuery("page", "1")` then `if page < 1`
coercion (shared by both listing handlers). -/
def effPage (page : Option Int) : Int :=
  let p := page.getD 1
  if p < 1 then 1 else p

/-- Effective limit of `GetContacts`: default 25, and
`if limit < 1 || limit > 100 { limit = 25 }`. -/
def gcEffLimit (limit : Option Int) : Int :=
  let l := limit.getD 25
  if l < 1 || l > 100 then 25 else l

/-- Effective limit of `GetAllContacts`: default 25, and only
`if limit < 1 { limit = 25 }` — no upper bound. -/
def gacEffLimit (limit : Option Int) : Int :=
  let l := limit.getD 25
  if l < 1 then 25 else l

/-- Search clause of `GetContacts`:
`firstname LIKE ? OR lastname LIKE ? OR nickname LIKE ?` with `%term%`. -/
def searchPred (term : String) (c : Contact) : Bool :=
  likeContains term c.firstname || likeContains term c.lastname ||
    likeContains term c.nickname

/-- gorm's serialization of the `circles` tag list into the JSON array
column that `GetCircles` reads back with `json_each(contacts.circles)`. -/
def serializeCircles (cs : List String) : String :=
  "[" ++ String.intercalate "," (cs.map (fun c => "\x22" ++ c ++ "\x22")) ++ "]"

/-- Circle clause of `GetContacts`: `circles LIKE '%circle%'` against the
serialized column text. -/
def circlePred (circle : String) (c : Contact) : Bool :=
  likeContains circle (serializeCircles c.circles)

/-- Rows satisfying the `Where` clauses of `GetContacts`: the search clause
when `search` is non-empty, then the circle clause when `circle` is
non-empty. -/
def gcFiltered (contacts : List Contact) (search circle : String) : List Contact :=
  let f1 := if search ≠ "" then contacts.filter (searchPred search) else contacts
  if circle ≠ "" then f1.filter (circlePred circle) else f1

/-- SQL `LIMIT limit OFFSET offset` applied to the filtered row list. -/
def paginate (l : List Contact) (limit offset : Nat) : List Contact :=
  (l.drop offset).take limit

/-- Query-string parameters of a contact-listing request (`c.Query` returns
`""` for an absent string parameter). -/
structure ListQuery where
  page : Option Int
  limit : Option Int
  fields : String
  search : String
  circle : String
deriving Repr

/-- JSON body of the listing response: the rows plus pagination metadata. -/
structure ListResponse where
  contacts : List Contact
  total : Nat
  page : Int
  limit : Int
deriving DecidableEq, Repr

/-- `GetContacts` (`backend/controllers/contact_controller.go`): effective
pagination, whitelisted field selection, LIKE search and circle filters,
`LIMIT`/`OFFSET`, and an unfiltered `Count` for `total`. -/
def GetContacts (db : DBState) (q : ListQuery) : ListResponse :=
  let page := effPage q.page
  let limit := gcEffLimit q.limit
  let offset := (page - 1) * limit
  { contacts := paginate (gcFiltered db.contacts q.search q.circle) limit.toNat offset.toNat
    total := db.contacts.length
    page := page
    limit := limit }

/-- `GetAllContacts` (`controllers/contact_controller.go`): no search or
circle filter, unvalidated field selection, `LIMIT`/`OFFSET` over all
contacts, unfiltered `Count` for `total`. -/
def GetAllContacts (db : DBState) (page limit : Option Int) : ListResponse :=
  let p := effPage page
  let l := gacEffLimit limit
  { contacts := paginate db.contacts l.toNat ((p - 1) * l).toNat
    total := db.contacts.length
    page := p
    limit := l }

/-- A search/circle parameter with no LIKE metacharacters. -/
def noWildcards (t : String) : Bool :=
  t.toList.all (fun c => c != '%' && c != '_')

/-- Literal-only LIKE pattern for a character list. -/
def litToks (t : List Char) : List LTok :=
  t.map LTok.lit

/-! ## LIKE lemmas -/

theorem likeMatches_litToks (t s : List Char) :
    likeMatches (litToks t) s = true ↔ s = t := by
  induction t generalizing s with
  | nil => cases s <;> simp [litToks, likeMatches]
  | cons c t ih =>
    cases s with
    | nil => simp [litToks, likeMatches]
    | cons c0 s0 =>
      simp only [litToks, List.map_cons, likeMatches, Bool.and_eq_true, beq_iff_eq,
        List.cons.injEq]
      rw [← litToks, ih]
      constructor
      · rintro ⟨rfl, rfl⟩; exact ⟨rfl, rfl⟩
      · rintro ⟨rfl, rfl⟩; exact ⟨rfl, rfl⟩

theorem likeMatches_litToks_anyRun (t s : List Char) :
    likeMatches (litToks t ++ [LTok.anyRun]) s = true ↔ ∃ post, s = t ++ post := by
  induction t generalizing s with
  | nil =>
    simp only [litToks, List.map_nil, List.nil_append, likeMatches, List.any_eq_true,
      List.mem_range, Nat.lt_succ_iff]
    constructor
    · intro _; exact ⟨s, by simp⟩
    · intro _
      exact ⟨s.length, le_refl _, by simp [List.isEmpty_iff]⟩
  | cons c t ih =>
    cases s with
    | nil =>
      simp [litToks, likeMatches]
    | cons c0 s0 =>
      simp only [litToks, List.map_cons, List.cons_append, likeMatches,
        Bool.and_eq_true, beq_iff_eq, List.append_eq]
      rw [show List.map LTok.lit t = litToks t from rfl, ih]
      constructor
      · rintro ⟨rfl, post, rfl⟩; exact ⟨post, rfl⟩
      · rintro ⟨post, h⟩
        cases h
        exact ⟨rfl, post, rfl⟩

theorem likeMatches_anyRun_cons (ps : List LTok) (s : List Char) :
    likeMatches (LTok.anyRun :: ps) s = true ↔
      ∃ i, i ≤ s.length ∧ likeMatches ps (s.drop i) = true := by
  simp [likeMatches, List.any_eq_true, List.mem_range, Nat.lt_succ_iff]

theorem occursIn_iff_drop (t s : List Char) :
    OccursIn t s ↔ ∃ i, i ≤ s.length ∧ ∃ post, s.drop i = t ++ post := by
  constructor
  · rintro ⟨pre, post, rfl⟩
    refine ⟨pre.length, by simp, post, ?_⟩
    rw [List.append_assoc, List.drop_left]
  · rintro ⟨i, _, post, hdrop⟩
    refine ⟨s.take i, post, ?_⟩
    conv_lhs => rw [← List.take_append_drop i s]
    rw [hdrop, List.append_assoc]

theorem occursIn_mem {t s : List Char} (h : OccursIn t s) : ∀ c ∈ t, c ∈ s := by
  rintro c hc
  obtain ⟨pre, post, rfl⟩ := h
  simp [hc]

theorem lexLike_of_noWildcards (t : String) (h : noWildcards t = true) :
    lexLike t.toList = litToks t.toList := by
  simp only [noWildcards, List.all_eq_true, Bool.and_eq_true, bne_iff_ne] at h
  unfold lexLike litToks
  apply List.map_congr_left
  intro c hc
  obtain ⟨h1, h2⟩ := h c hc
  simp [h1, h2]

/-- Central semantic fact: for a parameter without LIKE metacharacters, the
`column LIKE '%t%'` clause used by the listing handlers is exactly substring
occurrence of `t` in the column text. -/
theorem likeContains_iff_occursIn (t s : String) (h : noWildcards t = true) :
    likeContains t s = true ↔ OccursIn t.toList s.toList := by
  have hdata : ("%" ++ t ++ "%").toList = '%' :: (t.toList ++ ['%']) := by
    show (("%" ++ t) ++ "%").data = _
    rw [String.data_append, String.data_append]
    rfl
  have hlex : lexLike ('%' :: (t.toList ++ ['%'])) =
      LTok.anyRun :: (litToks t.toList ++ [LTok.anyRun]) := by
    unfold lexLike
    rw [List.map_cons, List.map_append]
    rw [show List.map _ t.toList = litToks t.toList from lexLike_of_noWildcards t h]
    rfl
  rw [likeContains, sqlLike, hdata, hlex]
  rw [likeMatches_anyRun_cons, occursIn_iff_drop]
  constructor
  · rintro ⟨i, hi, hm⟩
    rw [likeMatches_litToks_anyRun] at hm
    exact ⟨i, hi, hm⟩
  · rintro ⟨i, hi, post, hpost⟩
    exact ⟨i, hi, (likeMatches_litToks_anyRun _ _).2 ⟨post, hpost⟩⟩

/-! ## Membership helpers for the listing pipeline -/

theorem mem_paginate {c : Contact} {l : List Contact} {n k : Nat}
    (h : c ∈ paginate l n k) : c ∈ l :=
  List.mem_of_mem_drop (List.mem_of_mem_take h)

theorem mem_gcFiltered_search {c : Contact} {l : List Contact} {search circle : String}
    (hs : search ≠ "") (h : c ∈ gcFiltered l search circle) :
    searchPred search c = true := by
  unfold gcFiltered at h
  rw [if_pos hs] at h
  by_cases hc : circle ≠ ""
  · rw [if_pos hc] at h
    exact List.of_mem_filter (List.mem_of_mem_filter h)
  · rw [if_neg hc] at h
    exact List.of_mem_filter h

theorem mem_gcFiltered_circle {c : Contact} {l : List Contact} {search circle : String}
    (hc : circle ≠ "") (h : c ∈ gcFiltered l search circle) :
    circlePred circle c = true := by
  unfold gcFiltered at h
  rw [if_pos hc] at h
  exact List.of_mem_filter h

/-! ## Theorems for C1 and C2 -/

/-- C1. The birthday job selects exactly the contacts whose stored birthday
equals the current date, and emits exactly one templated mail per selected
contact, in order, with the template data built by the loop body; a contact
whose birthday differs from the current date is never selected. -/
theorem birthday_job_selects_matching_and_mails_each (db : DBState) (today : Date) :
    (∀ c : Contact, c ∈ queryBirthdayContacts db.contacts today ↔
        c ∈ db.contacts ∧ c.birthday = today) ∧
    sendBirthdayReminders db today =
      (queryBirthdayContacts db.contacts today).map (birthdayMailFor today) ∧
    (sendBirthdayReminders db today).length =
      (queryBirthdayContacts db.contacts today).length := by
  refine ⟨fun c => ?_, ?_, ?_⟩
  · simp [queryBirthdayContacts, List.mem_filter]
  · show (queryBirthdayContacts db.contacts today).foldl
        (fun mails c => mails ++ [birthdayMailFor today c]) [] = _
    generalize queryBirthdayContacts db.contacts today = l
    induction l using List.reverseRecOn with
    | nil => rfl
    | append_singleton xs x ih => simp [List.foldl_append, ih]
  · show (sendBirthdayReminders db today).length = _
    have h2 : sendBirthdayReminders db today =
        (queryBirthdayContacts db.contacts today).map (birthdayMailFor today) := by
      show (queryBirthdayContacts db.contacts today).foldl
          (fun mails c => mails ++ [birthdayMailFor today c]) [] = _
      generalize queryBirthdayContacts db.contacts today = l
      induction l using List.reverseRecOn with
      | nil => rfl
      | append_singleton xs x ih => simp [List.foldl_append, ih]
    rw [h2, List.length_map]

/-- C2 evidence. At startup the scheduler-start statement is entered but,
because `StartBlocking` never returns, the gin router setup and the HTTP
listen statement are never executed: the daily job runs, the REST API and
frontend are never served. -/
theorem main_blocks_before_http_listen :
    MainStep.scheduleBirthdayJob ∈ executedSteps mainProgram ∧
    MainStep.startSchedulerBlocking ∈ executedSteps mainProgram ∧
    MainStep.httpListen ∉ executedSteps mainProgram ∧
    MainStep.setupRouter ∉ executedSteps mainProgram := by
  decide

/-! ## Concrete fixtures -/

/-- Blank contact record used to build concrete instances. -/
def cBase : Contact :=
  { id := 0, firstname := "", lastname := "", nickname := "", gender := ""
    email := "", phone := "", birthday := ⟨1, 0, 0⟩, address := "", howWeMet := ""
    foodPreference := "", workInformation := "", contactInformation := ""
    circles := [], photo := "" }

/-- Contact with only an id, for bulk test databases. -/
def mkC (i : Nat) : Contact := { cBase with id := i }

/-- Thirty bare contacts, ids 0..29. -/
def db30 : DBState := ⟨(List.range 30).map mkC, [], []⟩

/-- Contact whose only circle tag is `friends`. -/
def cFriend : Contact := { cBase with id := 1, circles := ["friends"] }

/-- Contact with first name `azb`. -/
def cAzb : Contact := { cBase with id := 1, firstname := "azb" }

/-! ## Theorems for the listing claims (C3, C4, C5, C8, C9) -/

/-- C3 (amended). In `GetContacts` the select list is whitelist-driven: every
selected column is `ID` or an `allowedFields` member, and a requested name
outside the whitelist never reaches the query; but in `GetAllContacts` every
comma-separated requested name is passed to the select with no validation at
all. -/
theorem getContacts_fields_whitelisted :
    (∀ fields f, f ∈ gcSelectedFields fields → f = "ID" ∨ f ∈ allowedFields) ∧
    (∀ fields f, f ∉ allowedFields → f ≠ "ID" → f ∉ gcSelectedFields fields) ∧
    (∀ fields, fields ≠ "" →
      ∀ f ∈ splitComma fields, f ∈ (gacSelectedFields fields).getD []) := by
  have h1 : ∀ fields f, f ∈ gcSelectedFields fields → f = "ID" ∨ f ∈ allowedFields := by
    intro fields f hf
    unfold gcSelectedFields at hf
    by_cases hne : fields ≠ ""
    · rw [if_pos hne] at hf
      rcases List.mem_cons.1 hf with h | h
      · exact Or.inl h
      · refine Or.inr ?_
        have := (List.mem_filter.1 h).2
        simpa using this
    · rw [if_neg hne] at hf
      exact Or.inr hf
  refine ⟨h1, ?_, ?_⟩
  · intro fields f hnal hnid hf
    rcases h1 fields f hf with h | h
    · exact hnid h
    · exact hnal h
  · intro fields hne f hf
    unfold gacSelectedFields
    rw [if_neg hne]
    simpa using hf

/-- C3 witness: a name outside the whitelist is dropped by `GetContacts`. -/
theorem getContacts_fields_whitelisted_witness :
    "secret_col" ∉ gcSelectedFields "firstname,secret_col" :=
  getContacts_fields_whitelisted.2.1 "firstname,secret_col" "secret_col"
    (by decide) (by decide)

/-- C3 counterexample: `GetAllContacts` puts a non-whitelisted requested name
into the SQL select, where `GetContacts` would drop it. -/
theorem getAllContacts_select_not_whitelisted :
    "secret_col" ∈ (gacSelectedFields "secret_col").getD [] ∧
    "secret_col" ∉ allowedFields ∧
    "secret_col" ∉ gcSelectedFields "secret_col" := by decide

/-- C4 (amended). With a non-empty `circle` parameter, every contact on the
returned page satisfies the `circles LIKE '%circle%'` clause against the
serialized tag text, and before pagination a contact passes the filter
exactly when that clause holds — occurrence in the serialized text, not tag
membership. -/
theorem getContacts_circle_like_filter (db : DBState) (q : ListQuery) :
    (∀ c ∈ (GetContacts db q).contacts, q.circle ≠ "" → circlePred q.circle c = true) ∧
    (∀ circle c, circle ≠ "" →
      (c ∈ gcFiltered db.contacts "" circle ↔
        c ∈ db.contacts ∧ circlePred circle c = true)) := by
  constructor
  · intro c hc hne
    exact mem_gcFiltered_circle hne (mem_paginate hc)
  · intro circle c hne
    unfold gcFiltered
    have h0 : ¬(("" : String) ≠ "") := fun h => h rfl
    rw [if_neg h0, if_pos hne]
    exact List.mem_filter

/-- C4 witness: the amended filter at a concrete matching contact. -/
theorem getContacts_circle_like_filter_witness :
    circlePred "friends" cFriend = true :=
  (getContacts_circle_like_filter ⟨[cFriend], [], []⟩ ⟨none, none, "", "", "friends"⟩).1
    cFriend (by decide) (by decide)

/-- C4 counterexample: with circle parameter `friend`, the contact tagged
only `friends` is on the returned page although `friend` is not one of its
tags — the clause is substring occurrence in the serialized text, not tag
membership. -/
theorem circle_filter_matches_substring_not_member :
    cFriend ∈ (GetContacts ⟨[cFriend], [], []⟩ ⟨none, none, "", "", "friend"⟩).contacts ∧
    "friend" ∉ cFriend.circles := by decide

/-- A `LIMIT`/`OFFSET` window never holds more rows than the limit. -/
theorem paginate_length_le (l : List Contact) (n k : Nat) :
    (paginate l n k).length ≤ n := by
  simp only [paginate, List.length_take]
  exact Nat.min_le_left _ _

/-- C5 (amended). Both listing handlers return the window of the (filtered)
row list that skips the first `(page - 1) * limit` rows and holds at most
`limit` rows, echo the effective page and limit in the response, default
`page` to 1 and `limit` to 25, and coerce `page` below 1 to 1; but the limit
coercion differs: `GetContacts` resets any limit outside `[1, 100]` to 25,
while `GetAllContacts` resets only a limit below 1 and accepts arbitrarily
large values. -/
theorem listing_pagination (db : DBState) (q : ListQuery) (p l : Option Int) :
    (GetContacts db q).page = effPage q.page ∧
    (GetContacts db q).limit = gcEffLimit q.limit ∧
    (GetContacts db q).contacts.length ≤ (gcEffLimit q.limit).toNat ∧
    (GetContacts db q).contacts =
      paginate (gcFiltered db.contacts q.search q.circle) (gcEffLimit q.limit).toNat
        ((effPage q.page - 1) * gcEffLimit q.limit).toNat ∧
    (GetAllContacts db p l).page = effPage p ∧
    (GetAllContacts db p l).limit = gacEffLimit l ∧
    (GetAllContacts db p l).contacts.length ≤ (gacEffLimit l).toNat ∧
    (GetAllContacts db p l).contacts =
      paginate db.contacts (gacEffLimit l).toNat ((effPage p - 1) * gacEffLimit l).toNat ∧
    effPage none = 1 ∧ gcEffLimit none = 25 ∧ gacEffLimit none = 25 ∧
    (∀ v : Int, v < 1 → effPage (some v) = 1) ∧
    (∀ v : Int, 1 ≤ v → effPage (some v) = v) ∧
    (∀ v : Int, v < 1 ∨ 100 < v → gcEffLimit (some v) = 25) ∧
    (∀ v : Int, 1 ≤ v → v ≤ 100 → gcEffLimit (some v) = v) ∧
    (∀ v : Int, v < 1 → gacEffLimit (some v) = 25) ∧
    (∀ v : Int, 1 ≤ v → gacEffLimit (some v) = v) := by
  refine ⟨rfl, rfl, paginate_length_le _ _ _, rfl, rfl, rfl,
    paginate_length_le _ _ _, rfl, rfl, rfl, rfl, ?_, ?_, ?_, ?_, ?_, ?_⟩
  · intro v hv
    simp [effPage, hv]
  · intro v hv
    simp [effPage, not_lt.2 hv]
  · intro v hv
    rcases hv with h | h <;> simp [gcEffLimit, h]
  · intro v hv1 hv2
    simp [gcEffLimit, not_lt.2 hv1, not_lt.2 hv2]
  · intro v hv
    simp [gacEffLimit, hv]
  · intro v hv
    simp [gacEffLimit, not_lt.2 hv]

/-- C5 witness: the two limit-coercion behaviours at the concrete limit
101, extracted from the pagination theorem. -/
theorem listing_pagination_witness :
    (GetContacts db30 ⟨some 1, some 101, "", "", ""⟩).limit = 25 ∧
    (GetAllContacts db30 (some 1) (some 101)).limit = 101 := by
  obtain ⟨-, hgc, -, -, -, hgac, -, -, -, -, -, -, -, hco, -, -, hpass⟩ :=
    listing_pagination db30 ⟨some 1, some 101, "", "", ""⟩ (some 1) (some 101)
  constructor
  · rw [hgc, hco 101 (Or.inr (by norm_num))]
  · rw [hgac, hpass 101 (by norm_num)]

/-- C5 counterexample: limit 101 is reset to 25 by `GetContacts` (5 of the
30 rows remain on page 2) but is used as-is by `GetAllContacts` (all 30
rows on one page, response echoing limit 101) — there is no single
"out-of-range" rule shared by the two handlers. -/
theorem pagination_limit_coercion_differs :
    (GetContacts db30 ⟨some 2, some 101, "", "", ""⟩).contacts.length = 5 ∧
    (GetContacts db30 ⟨some 2, some 101, "", "", ""⟩).limit = 25 ∧
    (GetAllContacts db30 (some 2) (some 101)).contacts.length = 0 ∧
    (GetAllContacts db30 (some 1) (some 101)).contacts.length = 30 ∧
    (GetAllContacts db30 (some 1) (some 101)).limit = 101 := by decide

/-- C8 (amended). With a non-empty `search` parameter every contact on the
returned page satisfies the LIKE clause
`firstname LIKE '%s%' OR lastname LIKE '%s%' OR nickname LIKE '%s%'`; when
the term has no LIKE metacharacters this is exactly substring containment
in one of the three name fields, but `%` and `_` in the term act as
wildcards.  With an empty or absent `search` parameter no search filter is
applied. -/
theorem getContacts_search_like_only_if (db : DBState) (q : ListQuery) :
    (∀ c ∈ (GetContacts db q).contacts, q.search ≠ "" →
        searchPred q.search c = true ∧
        (noWildcards q.search = true →
          OccursIn q.search.toList c.firstname.toList ∨
          OccursIn q.search.toList c.lastname.toList ∨
          OccursIn q.search.toList c.nickname.toList)) ∧
    (q.search = "" →
      (GetContacts db q).contacts =
        paginate (if q.circle ≠ "" then db.contacts.filter (circlePred q.circle)
            else db.contacts)
          (gcEffLimit q.limit).toNat ((effPage q.page - 1) * gcEffLimit q.limit).toNat) := by
  constructor
  · intro c hc hne
    have hsp : searchPred q.search c = true :=
      mem_gcFiltered_search hne (mem_paginate hc)
    refine ⟨hsp, fun hnw => ?_⟩
    have h3 : likeContains q.search c.firstname = true ∨
        likeContains q.search c.lastname = true ∨
        likeContains q.search c.nickname = true := by
      have := hsp
      unfold searchPred at this
      rcases Bool.or_eq_true_iff.1 this with h | h
      · rcases Bool.or_eq_true_iff.1 h with h' | h'
        · exact Or.inl h'
        · exact Or.inr (Or.inl h')
      · exact Or.inr (Or.inr h)
    rcases h3 with h | h | h
    · exact Or.inl ((likeContains_iff_occursIn _ _ hnw).1 h)
    · exact Or.inr (Or.inl ((likeContains_iff_occursIn _ _ hnw).1 h))
    · exact Or.inr (Or.inr ((likeContains_iff_occursIn _ _ hnw).1 h))
  · intro hs
    show paginate (gcFiltered db.contacts q.search q.circle) _ _ = _
    unfold gcFiltered
    rw [hs]
    have h0 : ¬(("" : String) ≠ "") := fun h => h rfl
    rw [if_neg h0]

/-- C8 witness: the amended search property at a concrete request. -/
theorem getContacts_search_like_only_if_witness :
    searchPred "zb" cAzb = true ∧ OccursIn "zb".toList cAzb.firstname.toList := by
  have h := (getContacts_search_like_only_if ⟨[cAzb], [], []⟩
      ⟨none, none, "", "zb", ""⟩).1 cAzb (by decide) (by decide)
  refine ⟨h.1, ?_⟩
  rcases h.2 (by decide) with h' | h' | h'
  · exact h'
  · exact absurd (occursIn_mem h' 'z' (by decide)) (by decide)
  · exact absurd (occursIn_mem h' 'z' (by decide)) (by decide)

/-- C8 counterexample: the search term `a%b` puts the contact with first
name `azb` on the page although `a%b` is not a substring of any of its
name fields — `%` acts as a LIKE wildcard, not a literal character. -/
theorem search_filter_wildcard_not_substring :
    cAzb ∈ (GetContacts ⟨[cAzb], [], []⟩ ⟨none, none, "", "a%b", ""⟩).contacts ∧
    ¬ OccursIn "a%b".toList cAzb.firstname.toList ∧
    ¬ OccursIn "a%b".toList cAzb.lastname.toList ∧
    ¬ OccursIn "a%b".toList cAzb.nickname.toList := by
  refine ⟨by decide, ?_, ?_, ?_⟩ <;>
    exact fun h => absurd (occursIn_mem h '%' (by decide)) (by decide)

/-- C9. The `total` field of both listing responses is the unfiltered
contact count: it equals the number of contact rows in the database,
whatever the search, circle, fields, page and limit parameters are. -/
theorem listing_total_counts_all_rows (db : DBState) (q : ListQuery) (p l : Option Int) :
    (GetContacts db q).total = db.contacts.length ∧
    (GetAllContacts db p l).total = db.contacts.length :=
  ⟨rfl, rfl⟩

/-! ## Mutating handlers: relationships, reminders, contact update -/

/-- Head of a gin JSON response: status code and the `error` field of the
body, `none` on success. -/
structure HResp where
  status : Nat
  errMsg : Option String
deriving DecidableEq, Repr

/-- `AddRelationshipToContact` (`controllers/contact_controller.go`): look
up the addressed contact (404 on `ErrRecordNotFound`), bind the body (400
on failure, message elided), then when the body's `ContactID` is non-nil
look up the related contact and answer 404 `Related contact not found`
without storing anything when it is missing; otherwise append the
relationship and save. -/
def addRelationshipToContact (st : DBState) (cid : Nat) (body : Option Relationship) :
    HResp × DBState :=
  match findContact st.contacts cid with
  | none => (⟨404, some "Contact not found"⟩, st)
  | some _ =>
    match body with
    | none => (⟨400, some "Invalid request body"⟩, st)
    | some rel =>
      match rel.contactID with
      | some rid =>
        match findContact st.contacts rid with
        | none => (⟨404, some "Related contact not found"⟩, st)
        | some _ =>
            (⟨200, none⟩, { st with relationships := st.relationships ++ [rel] })
      | none => (⟨200, none⟩, { st with relationships := st.relationships ++ [rel] })

/-- `CreateRelationship` (relationship controller): bind the body (400 with
the bind error on failure), and when `ContactID` is non-nil require the
referenced contact to exist, answering 400 `Related contact not found`
without storing anything when it does not; otherwise create the row. -/
def createRelationship (st : DBState) (body : Option Relationship) : HResp × DBState :=
  match body with
  | none => (⟨400, some "invalid body"⟩, st)
  | some rel =>
    match rel.contactID with
    | some rid =>
      match findContact st.contacts rid with
      | none => (⟨400, some "Related contact not found"⟩, st)
      | some _ => (⟨200, none⟩, { st with relationships := st.relationships ++ [rel] })
    | none => (⟨200, none⟩, { st with relationships := st.relationships ++ [rel] })

/-- `CreateReminder` (reminder controller): look up the addressed contact
(404 `Contact not found` on `ErrRecordNotFound`), bind the body (400 on
failure), overwrite the reminder's `ContactID` with the contact's id, and
create the row. -/
def createReminder (st : DBState) (cid : Nat) (body : Option Reminder) : HResp × DBState :=
  match findContact st.contacts cid with
  | none => (⟨404, some "Contact not found"⟩, st)
  | some contact =>
    match body with
    | none => (⟨400, some "invalid body"⟩, st)
    | some rem =>
      (⟨200, none⟩,
        { st with reminders := st.reminders ++ [{ rem with contactID := some contact.id }] })

/-- A successful primary-key lookup returns a record carrying that key. -/
theorem findContact_id {l : List Contact} {i : Nat} {c : Contact}
    (h : findContact l i = some c) : c.id = i := by
  have := List.find?_some h
  simpa using this

/-! ## Theorems for C6 and C7 -/

/-- C6. When an add-relationship or create-relationship body carries a
non-null `ContactID` naming no existing contact, each handler answers an
error whose message is `Related contact not found` (status 404 from
`AddRelationshipToContact`, status 400 from `CreateRelationship`) and
leaves the database unchanged; and in full generality either handler grows
the relationship table only when the referenced contact exists. -/
theorem relationship_requires_existing_related_contact (st : DBState) (cid rid : Nat)
    (rel : Relationship) (hrel : rel.contactID = some rid)
    (hmiss : findContact st.contacts rid = none) :
    (∀ c, findContact st.contacts cid = some c →
      addRelationshipToContact st cid (some rel) =
        (⟨404, some "Related contact not found"⟩, st)) ∧
    createRelationship st (some rel) =
      (⟨400, some "Related contact not found"⟩, st) ∧
    (∀ (rel2 : Relationship) (rid2 : Nat) (body : Option Relationship),
      body = some rel2 → rel2.contactID = some rid2 →
      (addRelationshipToContact st cid body).2.relationships ≠ st.relationships →
      ∃ rc, findContact st.contacts rid2 = some rc) ∧
    (∀ (rel2 : Relationship) (rid2 : Nat) (body : Option Relationship),
      body = some rel2 → rel2.contactID = some rid2 →
      (createRelationship st body).2.relationships ≠ st.relationships →
      ∃ rc, findContact st.contacts rid2 = some rc) := by
  refine ⟨?_, ?_, ?_, ?_⟩
  · intro c hc
    simp [addRelationshipToContact, hc, hrel, hmiss]
  · simp [createRelationship, hrel, hmiss]
  · rintro rel2 rid2 body rfl h2 hne
    cases hfc : findContact st.contacts cid with
    | none => simp [addRelationshipToContact, hfc] at hne
    | some c =>
      cases hfr : findContact st.contacts rid2 with
      | none => simp [addRelationshipToContact, hfc, h2, hfr] at hne
      | some rc => exact ⟨rc, rfl⟩
  · rintro rel2 rid2 body rfl h2 hne
    cases hfr : findContact st.contacts rid2 with
    | none => simp [createRelationship, h2, hfr] at hne
    | some rc => exact ⟨rc, rfl⟩

/-- C6 witness: both handlers reject the concrete relationship pointing at
the missing contact 9 and leave the database unchanged. -/
theorem relationship_requires_existing_related_contact_witness :
    addRelationshipToContact ⟨[mkC 1], [], []⟩ 1 (some ⟨"sibling", some 9⟩) =
      (⟨404, some "Related contact not found"⟩, ⟨[mkC 1], [], []⟩) ∧
    createRelationship ⟨[mkC 1], [], []⟩ (some ⟨"sibling", some 9⟩) =
      (⟨400, some "Related contact not found"⟩, ⟨[mkC 1], [], []⟩) := by
  have h := relationship_requires_existing_related_contact ⟨[mkC 1], [], []⟩ 1 9
    ⟨"sibling", some 9⟩ rfl (by decide)
  exact ⟨h.1 (mkC 1) (by decide), h.2.1⟩

/-- C7. A create-reminder request addressed to a missing contact id answers
404 `Contact not found` and stores nothing; addressed to an existing
contact with a well-formed body it stores exactly one new reminder whose
`ContactID` is that contact id. -/
theorem createReminder_ties_reminder_to_existing_contact (st : DBState) (cid : Nat)
    (body : Option Reminder) :
    (findContact st.contacts cid = none →
      createReminder st cid body = (⟨404, some "Contact not found"⟩, st)) ∧
    (∀ c, findContact st.contacts cid = some c → ∀ rem, body = some rem →
      createReminder st cid body =
        (⟨200, none⟩,
          { st with reminders := st.reminders ++ [{ rem with contactID := some cid }] })) := by
  constructor
  · intro h
    unfold createReminder
    rw [h]
  · intro c hc rem hb
    simp only [createReminder, hc, hb]
    rw [findContact_id hc]

/-- C7 witness: the concrete reminder lands on contact 3 with
`ContactID = 3`; a request addressed to the absent contact 7 is refused. -/
theorem createReminder_ties_reminder_to_existing_contact_witness :
    createReminder ⟨[mkC 3], [], []⟩ 3 (some ⟨"call", none⟩) =
      (⟨200, none⟩, ⟨[mkC 3], [], [⟨"call", some 3⟩]⟩) ∧
    createReminder ⟨[mkC 3], [], []⟩ 7 (some ⟨"call", none⟩) =
      (⟨404, some "Contact not found"⟩, ⟨[mkC 3], [], []⟩) := by
  constructor
  · have h := (createReminder_ties_reminder_to_existing_contact ⟨[mkC 3], [], []⟩ 3
      (some ⟨"call", none⟩)).2 (mkC 3) (by decide) ⟨"call", none⟩ rfl
    exact h.trans (by decide)
  · exact (createReminder_ties_reminder_to_existing_contact ⟨[mkC 3], [], []⟩ 7
      (some ⟨"call", none⟩)).1 (by decide)

/-! ## Contact update (`UpdateContact`, identical in both controller files) -/

/-- JSON body of an update-contact request: each key may be present or
absent.  Go's `c.ShouldBindJSON(&contact)` decodes the body over the
already-loaded struct, so a present key overwrites the field and an absent
key leaves the loaded value untouched. -/
structure ContactPatch where
  firstname : Option String
  lastname : Option String
  nickname : Option String
  gender : Option String
  email : Option String
  phone : Option String
  birthday : Option Date
  address : Option String
  howWeMet : Option String
  foodPreference : Option String
  workInformation : Option String
  contactInformation : Option String
  circles : Option (List String)
  photo : Option String
deriving DecidableEq, Repr

/-- Decode-over-loaded-record semantics of `ShouldBindJSON` in
`UpdateContact`: field-wise merge of the body into the stored contact. -/
def applyPatch (c : Contact) (p : ContactPatch) : Contact :=
  { id := c.id
    firstname := p.firstname.getD c.firstname
    lastname := p.lastname.getD c.lastname
    nickname := p.nickname.getD c.nickname
    gender := p.gender.getD c.gender
    email := p.email.getD c.email
    phone := p.phone.getD c.phone
    birthday := p.birthday.getD c.birthday
    address := p.address.getD c.address
    howWeMet := p.howWeMet.getD c.howWeMet
    foodPreference := p.foodPreference.getD c.foodPreference
    workInformation := p.workInformation.getD c.workInformation
    contactInformation := p.contactInformation.getD c.contactInformation
    circles := p.circles.getD c.circles
    photo := p.photo.getD c.photo }

/-- `UpdateContact`: `db.First` the stored record (404 on failure), bind
the body over it (400 on failure), `db.Save` the merged record back under
its primary key. -/
def updateContact (st : DBState) (cid : Nat) (body : Option ContactPatch) :
    HResp × DBState :=
  match findContact st.contacts cid with
  | none => (⟨404, some "Contact not found"⟩, st)
  | some c =>
    match body with
    | none => (⟨400, some "invalid body"⟩, st)
    | some p =>
      (⟨200, none⟩,
        { st with contacts :=
            st.contacts.map (fun x => if x.id == cid then applyPatch c p else x) })

/-- Saving a record under the primary key it was loaded from makes it the
record the next lookup of that key returns. -/
theorem findContact_update {l : List Contact} {i : Nat} {c c' : Contact}
    (h : findContact l i = some c) (h' : c'.id = i) :
    findContact (l.map (fun x => if x.id == i then c' else x)) i = some c' := by
  induction l with
  | nil => simp [findContact] at h
  | cons x xs ih =>
    by_cases hx : x.id = i
    · simp [findContact, hx, h']
    · have h2 : findContact xs i = some c := by
        simpa [findContact, List.find?_cons, hx] using h
      simpa [findContact, hx] using ih h2

/-- C10. Updating an existing contact with a well-formed body answers 200
and replaces the stored record with the field-wise merge of the body over
the loaded record; every field the body leaves absent keeps its previously
stored value (the id always does). -/
theorem updateContact_merges_body_over_stored (st : DBState) (cid : Nat)
    (c : Contact) (p : ContactPatch)
    (hc : findContact st.contacts cid = some c) :
    (updateContact st cid (some p)).1 = ⟨200, none⟩ ∧
    findContact (updateContact st cid (some p)).2.contacts cid = some (applyPatch c p) ∧
    (applyPatch c p).id = c.id ∧
    (p.firstname = none → (applyPatch c p).firstname = c.firstname) ∧
    (p.lastname = none → (applyPatch c p).lastname = c.lastname) ∧
    (p.nickname = none → (applyPatch c p).nickname = c.nickname) ∧
    (p.gender = none → (applyPatch c p).gender = c.gender) ∧
    (p.email = none → (applyPatch c p).email = c.email) ∧
    (p.phone = none → (applyPatch c p).phone = c.phone) ∧
    (p.birthday = none → (applyPatch c p).birthday = c.birthday) ∧
    (p.address = none → (applyPatch c p).address = c.address) ∧
    (p.howWeMet = none → (applyPatch c p).howWeMet = c.howWeMet) ∧
    (p.foodPreference = none → (applyPatch c p).foodPreference = c.foodPreference) ∧
    (p.workInformation = none → (applyPatch c p).workInformation = c.workInformation) ∧
    (p.contactInformation = none →
      (applyPatch c p).contactInformation = c.contactInformation) ∧
    (p.circles = none → (applyPatch c p).circles = c.circles) ∧
    (p.photo = none → (applyPatch c p).photo = c.photo) := by
  refine ⟨?_, ?_, rfl, ?_, ?_, ?_, ?_, ?_, ?_, ?_, ?_, ?_, ?_, ?_, ?_, ?_, ?_⟩
  · simp [updateContact, hc]
  · simp only [updateContact, hc]
    exact findContact_update hc (by simp [applyPatch, findContact_id hc])
  all_goals intro h; simp [applyPatch, h]

/-- C10 witness: patching only the last name of the stored contact keeps
its first name (and the other absent fields) intact. -/
theorem updateContact_merges_body_over_stored_witness :
    (updateContact ⟨[{ cBase with id := 2, firstname := "Bob", lastname := "Old" }], [], []⟩
        2 (some ⟨none, some "New", none, none, none, none, none, none, none, none,
          none, none, none, none⟩)).1 = ⟨200, none⟩ ∧
    findContact
      (updateContact ⟨[{ cBase with id := 2, firstname := "Bob", lastname := "Old" }], [], []⟩
        2 (some ⟨none, some "New", none, none, none, none, none, none, none, none,
          none, none, none, none⟩)).2.contacts 2 =
      some ({ cBase with id := 2, firstname := "Bob", lastname := "New" }) ∧
    (applyPatch { cBase with id := 2, firstname := "Bob", lastname := "Old" }
        ⟨none, some "New", none, none, none, none, none, none, none, none,
          none, none, none, none⟩).firstname = "Bob" := by
  have h := updateContact_merges_body_over_stored
    ⟨[{ cBase with id := 2, firstname := "Bob", lastname := "Old" }], [], []⟩ 2
    { cBase with id := 2, firstname := "Bob", lastname := "Old" }
    ⟨none, some "New", none, none, none, none, none, none, none, none,
      none, none, none, none⟩ (by decide)
  refine ⟨h.1, ?_, h.2.2.2.1 rfl⟩
  rw [h.2.1]
  decide
